import Mathlib

/-
  Verification development for the smart-parking backend (src/server.js and
  its duplicated copy src/unnamed/part_000).

  The Mongo collections are modelled as Lean lists of records; documents of
  the "parking" collection, which are subject to open-ended merge-patch, are
  modelled as association lists from field names to BSON-like values.  Each
  route handler becomes a pure function from the relevant collection state
  and request data to an outcome recording the HTTP status, the collection
  state after the call, and how many times the Change Notifier (notifyUpdate,
  a socket.io broadcast) fired.
-/

set_option autoImplicit false

namespace SmartParking

/-- A BSON-like value stored in a document field. -/
inductive BVal where
  | vnull : BVal
  | vstr : String → BVal
  | vnum : Int → BVal
  | vbool : Bool → BVal
  | vdate : Nat → BVal
  deriving DecidableEq, Repr

/-- A document body: an association list from field names to values. -/
abbrev BDoc := List (String × BVal)

/-- First-occurrence field lookup in a document. -/
def getField : BDoc → String → Option BVal
  | [], _ => none
  | (k0, v) :: rest, k => if k0 = k then some v else getField rest k

/-- Set one field: replace the first occurrence, or append if absent. -/
def setField : BDoc → String → BVal → BDoc
  | [], k, v => [(k, v)]
  | (k0, v0) :: rest, k, v =>
    if k0 = k then (k, v) :: rest else (k0, v0) :: setField rest k v

/-- Mongo $set with a document of updates, applied left to right. -/
def setFields (d : BDoc) (updates : BDoc) : BDoc :=
  updates.foldl (fun acc kv => setField acc kv.1 kv.2) d

/-- Hexadecimal character test, as used by the driver to validate ObjectIds. -/
def isHexChar (c : Char) : Bool :=
  c.isDigit || (('a' ≤ c && c ≤ 'f') || ('A' ≤ c && c ≤ 'F'))

/-- ObjectId.isValid on a string: a 12-character string (taken as raw bytes)
    or a 24-character hexadecimal string.  The ObjectId constructor throws a
    BSONError exactly when this is false. -/
def objectIdIsValid (s : String) : Bool :=
  s.length = 12 || (s.length = 24 && s.toList.all isHexChar)

/-- JavaScript truthiness of an optional string request field:
    undefined and the empty string are falsy. -/
def truthyStr : Option String → Bool
  | none => false
  | some s => !(s = "")

/-! ## Slot collection -/

/-- A document of the "slots" collection. -/
structure Slot where
  _id : String
  slotNumber : String
  vehicleType : String
  status : String
  deriving DecidableEq, Repr

/-- Outcome of a slot mutation: HTTP status, slots collection after the
    call, number of Change Notifier broadcasts. -/
structure SlotOutcome where
  httpStatus : Nat
  slots : List Slot
  notifications : Nat
  deriving DecidableEq, Repr

/-- updateOne on "slots": set the status of the first document whose _id
    matches. -/
def updateSlotStatus : List Slot → String → String → List Slot
  | [], _, _ => []
  | s :: rest, slotId, st =>
    if s._id = slotId then { s with status := st } :: rest
    else s :: updateSlotStatus rest slotId st

/-- Whether some document of the slots collection has the given _id
    (matchedCount of the updateOne is nonzero). -/
def slotMatched (slots : List Slot) (slotId : String) : Bool :=
  slots.any (fun s => s._id = slotId)

/-- The allowed slot status values of PATCH /api/slots-status-update. -/
def allowedStatus : List String := ["free", "booked"]

/-- PATCH /api/slots-status-update/:slotId (src/server.js lines 80-127):
    400 on invalid ObjectId, falsy status, or status outside allowedStatus;
    otherwise updateOne, 404 when nothing matched, else notify and 200. -/
def slotsStatusUpdate (slots : List Slot) (slotId : String) (status : Option String) :
    SlotOutcome :=
  if !objectIdIsValid slotId then ⟨400, slots, 0⟩
  else if !truthyStr status then ⟨400, slots, 0⟩
  else
    let st := status.getD ""
    if !allowedStatus.contains st then ⟨400, slots, 0⟩
    else
      let slots2 := updateSlotStatus slots slotId st
      if !slotMatched slots slotId then ⟨404, slots, 0⟩
      else ⟨200, slots2, 1⟩

/-- POST /api/slots (src/server.js lines 39-60): require truthy slotNumber
    and vehicleType, default status "free", insert. -/
def addSlot (slots : List Slot) (slotNumber vehicleType status : Option String)
    (newId : String) : Nat × List Slot :=
  let st := status.getD "free"
  if !truthyStr slotNumber || !truthyStr vehicleType then (400, slots)
  else (201, slots ++ [⟨newId, slotNumber.getD "", vehicleType.getD "", st⟩])

/-- Insertion (ascending by slotNumber) used to model the Mongo sort. -/
def slotInsAsc (s : Slot) : List Slot → List Slot
  | [] => [s]
  | e :: rest =>
    if decide (s.slotNumber < e.slotNumber) then s :: e :: rest
    else e :: slotInsAsc s rest

/-- Stable insertion sort ascending by slotNumber. -/
def sortSlotsAsc : List Slot → List Slot
  | [] => []
  | s :: rest => slotInsAsc s (sortSlotsAsc rest)

/-- GET /api/slots (src/server.js lines 64-77): all slots sorted by
    slotNumber ascending. -/
def listSlots (slots : List Slot) : Nat × List Slot :=
  (200, sortSlotsAsc slots)

/-- updateOne on "slots" with a $set of the supplied slotNumber and
    vehicleType fields, applied to the first matching document. -/
def updateSlotNumberType : List Slot → String → Option String → Option String → List Slot
  | [], _, _, _ => []
  | s :: rest, id, sn, vt =>
    if s._id = id then
      { s with slotNumber := sn.getD s.slotNumber, vehicleType := vt.getD s.vehicleType } :: rest
    else s :: updateSlotNumberType rest id sn vt

/-- PATCH /api/slots-update-slotNumber-vehicleType/:id (src/server.js lines
    130-169): 400 when neither field is supplied; the ObjectId constructor
    error on a malformed id is caught by the generic handler, giving 500;
    otherwise updateOne, 404 on no match. -/
def slotsUpdateFields (slots : List Slot) (id : String)
    (slotNumber vehicleType : Option String) : Nat × List Slot :=
  if slotNumber = none ∧ vehicleType = none then (400, slots)
  else if !objectIdIsValid id then (500, slots)
  else if !slotMatched slots id then (404, slots)
  else (200, updateSlotNumberType slots id slotNumber vehicleType)

/-- deleteOne on "slots": remove the first document whose _id matches. -/
def deleteSlotFirst : List Slot → String → List Slot
  | [], _ => []
  | s :: rest, id => if s._id = id then rest else s :: deleteSlotFirst rest id

/-- DELETE /api/slots/:id (src/server.js lines 172-186): the ObjectId
    constructor error on a malformed id is caught, giving 500; otherwise
    deleteOne, 404 when nothing was deleted. -/
def slotsDelete (slots : List Slot) (id : String) : Nat × List Slot :=
  if !objectIdIsValid id then (500, slots)
  else if !slotMatched slots id then (404, slots)
  else (200, deleteSlotFirst slots id)

/-- The free slots, in collection order ($match stage of the aggregation). -/
def freeSlots (slots : List Slot) : List Slot :=
  slots.filter (fun s => s.status == "free")

/-- Distinct keys, first occurrence kept, accumulating seen keys. -/
def distinctKeysAux : List String → List String → List String
  | _, [] => []
  | seen, k :: rest =>
    if k ∈ seen then distinctKeysAux seen rest
    else k :: distinctKeysAux (k :: seen) rest

/-- Distinct keys of a list, first occurrences kept. -/
def distinctKeys (l : List String) : List String :=
  distinctKeysAux [] l

/-- Number of free slots of a given vehicle type. -/
def countFree (slots : List Slot) (cat : String) : Nat :=
  ((freeSlots slots).filter (fun s => s.vehicleType == cat)).length

/-- GET /api/slots/available (src/server.js lines 189-215): the aggregation
    $match status "free", $group by vehicleType with count, one output
    document per group key. -/
def slotsAvailable (slots : List Slot) : List (String × Nat) :=
  (distinctKeys ((freeSlots slots).map (fun s => s.vehicleType))).map
    (fun c => (c, countFree slots c))

/-- First-occurrence lookup in the aggregation output. -/
def lookupCount : List (String × Nat) → String → Option Nat
  | [], _ => none
  | (k, n) :: rest, cat => if k = cat then some n else lookupCount rest cat

/-! ## Parking collection -/

/-- A document of the "parking" collection: generated _id plus an open
    field map (the merge-patch endpoint can write arbitrary fields). -/
structure PDoc where
  _id : String
  fields : BDoc
  deriving DecidableEq, Repr

/-- The request body of POST /api/parking/book, as read from req.body. -/
structure BookBody where
  uid : BVal
  vehicleType : BVal
  name : BVal
  email : BVal
  phone : BVal
  deriving DecidableEq, Repr

/-- The document inserted by POST /api/parking/book (src/server.js lines
    220-238), with booking_time the current time. -/
def bookedDoc (b : BookBody) (now : Nat) : BDoc :=
  [("uid", b.uid), ("vehicleType", b.vehicleType), ("name", b.name),
   ("email", b.email), ("phone", b.phone), ("slotNumber", BVal.vnull),
   ("booking_time", BVal.vdate now), ("entryTime", BVal.vnull),
   ("exitTime", BVal.vnull), ("paidAmount", BVal.vnull),
   ("status", BVal.vstr "inital")]

/-- Outcome of a parking mutation: HTTP status, parking collection after
    the call, number of Change Notifier broadcasts. -/
structure ParkingOutcome where
  httpStatus : Nat
  parking : List PDoc
  notifications : Nat
  deriving DecidableEq, Repr

/-- POST /api/parking/book (src/server.js lines 220-238): insertOne of the
    booked document, notifyUpdate, 201. -/
def parkingBook (db : List PDoc) (newId : String) (b : BookBody) (now : Nat) :
    ParkingOutcome :=
  ⟨201, db ++ [⟨newId, bookedDoc b now⟩], 1⟩

/-- The status values treated as an active session by
    GET /api/parking/user-current-parking. -/
def activeStatuses : List String := ["inital", "parked", "paid", "repay"]

/-- The status values treated as history by GET /api/parking/user-history. -/
def historyStatuses : List String := ["entance_error", "completed"]

/-- Whether a parking document's status field is one of the given strings
    (the $in filter; a missing or non-string status matches nothing). -/
def statusIn (d : PDoc) (l : List String) : Bool :=
  match getField d.fields "status" with
  | some (BVal.vstr s) => l.contains s
  | _ => false

/-- Whether a parking document's uid field equals the query string. -/
def uidMatches (d : PDoc) (uid : String) : Bool :=
  getField d.fields "uid" == some (BVal.vstr uid)

/-- The booking_time sort key (documents without a date booking_time get
    key 0). -/
def bookingTimeKey (d : PDoc) : Nat :=
  match getField d.fields "booking_time" with
  | some (BVal.vdate t) => t
  | _ => 0

/-- Insertion (descending by booking_time, stable) modelling the Mongo
    sort booking_time -1. -/
def pdocInsBookingDesc (d : PDoc) : List PDoc → List PDoc
  | [] => [d]
  | e :: rest =>
    if bookingTimeKey e < bookingTimeKey d then d :: e :: rest
    else e :: pdocInsBookingDesc d rest

/-- Stable insertion sort descending by booking_time. -/
def sortByBookingDesc : List PDoc → List PDoc
  | [] => []
  | d :: rest => pdocInsBookingDesc d (sortByBookingDesc rest)

/-- Outcome of a parking query: HTTP status and the returned documents. -/
structure ParkingQueryOutcome where
  httpStatus : Nat
  body : List PDoc
  deriving DecidableEq, Repr

/-- GET /api/parking/user-current-parking (src/server.js lines 241-261):
    400 on falsy uid, else the active-status sessions of that uid sorted by
    booking_time descending. -/
def userCurrentParking (db : List PDoc) (uid : Option String) : ParkingQueryOutcome :=
  if !truthyStr uid then ⟨400, []⟩
  else
    let u := uid.getD ""
    ⟨200, sortByBookingDesc (db.filter (fun d => uidMatches d u && statusIn d activeStatuses))⟩

/-- GET /api/parking/user-history (src/server.js lines 264-284): 400 on
    falsy uid, else the history-status sessions of that uid sorted by
    booking_time descending. -/
def userHistory (db : List PDoc) (uid : Option String) : ParkingQueryOutcome :=
  if !truthyStr uid then ⟨400, []⟩
  else
    let u := uid.getD ""
    ⟨200, sortByBookingDesc (db.filter (fun d => uidMatches d u && statusIn d historyStatuses))⟩

/-- The entryTime sort key: a date entryTime t gets key t + 1, documents
    with a null or missing entryTime sort after all dated ones under the
    descending order. -/
def entryTimeKey (d : PDoc) : Nat :=
  match getField d.fields "entryTime" with
  | some (BVal.vdate t) => t + 1
  | _ => 0

/-- Insertion (descending by entryTime, stable). -/
def pdocInsEntryDesc (d : PDoc) : List PDoc → List PDoc
  | [] => [d]
  | e :: rest =>
    if entryTimeKey e < entryTimeKey d then d :: e :: rest
    else e :: pdocInsEntryDesc d rest

/-- Stable insertion sort descending by entryTime. -/
def sortByEntryDesc : List PDoc → List PDoc
  | [] => []
  | d :: rest => pdocInsEntryDesc d (sortByEntryDesc rest)

/-- GET /api/parking (src/server.js lines 287-300): every session sorted
    by entryTime descending. -/
def parkingList (db : List PDoc) : Nat × List PDoc :=
  (200, sortByEntryDesc db)

/-- updateOne on "parking": merge the body fields ($set) into the first
    document whose _id matches. -/
def updateDocFields : List PDoc → String → BDoc → List PDoc
  | [], _, _ => []
  | d :: rest, id, body =>
    if d._id = id then { d with fields := setFields d.fields body } :: rest
    else d :: updateDocFields rest id body

/-- Result of PATCH /api/parking/:entranceId.  The handler has no try/catch,
    so a malformed id makes the ObjectId constructor throw and the error
    escapes the handler; otherwise the handler replies 200 after exactly one
    notifyUpdate, matched or not. -/
inductive ParkingPatchResult where
  | errorThrown : ParkingPatchResult
  | ok (parking : List PDoc) (httpStatus : Nat) (notifications : Nat) : ParkingPatchResult
  deriving DecidableEq, Repr

/-- PATCH /api/parking/:entranceId (src/server.js lines 303-311): updateOne
    with $set of the whole request body, then notifyUpdate and 200,
    unconditionally on whether anything matched. -/
def parkingPatch (db : List PDoc) (entranceId : String) (body : BDoc) :
    ParkingPatchResult :=
  if !objectIdIsValid entranceId then .errorThrown
  else .ok (updateDocFields db entranceId body) 200 1

/-- The projection of GET /api/parking/times: _id, entryTime, exitTime
    (present fields only). -/
def projectTimes (d : PDoc) : BDoc :=
  [("_id", BVal.vstr d._id)]
    ++ (match getField d.fields "entryTime" with
        | some v => [("entryTime", v)]
        | none => [])
    ++ (match getField d.fields "exitTime" with
        | some v => [("exitTime", v)]
        | none => [])

/-- The find filter of GET /api/parking/times: _id when a parkingId was
    given, and the userId field when a userId was given. -/
def timesFilter (d : PDoc) (parkingId userId : Option String) : Bool :=
  (match parkingId with
   | some pid => d._id == pid
   | none => true)
  && (match userId with
      | some u => getField d.fields "userId" == some (BVal.vstr u)
      | none => true)

/-- GET /api/parking/times (src/server.js lines 314-337): a truthy
    parkingId is turned into an ObjectId (500 via the catch when malformed),
    a truthy userId adds a filter on the userId field, and the matching
    documents are returned under the (_id, entryTime, exitTime)
    projection. -/
def parkingTimes (db : List PDoc) (parkingId userId : Option String) :
    Nat × List BDoc :=
  if truthyStr parkingId && !objectIdIsValid (parkingId.getD "") then (500, [])
  else
    let pq : Option String := if truthyStr parkingId then some (parkingId.getD "") else none
    let uq : Option String := if truthyStr userId then some (userId.getD "") else none
    (200, (db.filter (fun d => timesFilter d pq uq)).map projectTimes)

/-! ## QR codec

The QR endpoints delegate to the third-party libraries qrcode, jsqr and
canvas, which are outside this repository.  Modelled from the spec: the
encoder renders text as a scannable image and always succeeds for
serializable input; loadImage fails on input that is not an image, as
distinct from an image with no code; jsQR yields the embedded data of a
code, or null when the image contains none.  JSON.stringify and JSON.parse
are abstracted as a serializer parameter together with its inverse. -/

/-- Modelled from the spec: a loadable image, either carrying one QR code
    with its data string or carrying no code. -/
inductive QRImage where
  | withCode (data : String) : QRImage
  | noCode : QRImage
  deriving DecidableEq, Repr

/-- Modelled from the spec: the request input of POST /api/qr/decode,
    either a loadable image or bytes that cannot be loaded as an image. -/
inductive ImageInput where
  | loadable (img : QRImage) : ImageInput
  | unloadable : ImageInput
  deriving DecidableEq, Repr

/-- Modelled from the spec: QRCode.toDataURL renders the text as a
    scannable image. -/
def toDataURL (s : String) : ImageInput :=
  .loadable (.withCode s)

/-- Modelled from the spec: canvas loadImage yields the image, or an error
    when the input cannot be loaded as an image. -/
def loadImage : ImageInput → Except String QRImage
  | .loadable img => .ok img
  | .unloadable => .error "Unsupported image type"

/-- Modelled from the spec: jsQR locates a code in the pixel data and
    yields its data, or null when the image contains no code. -/
def jsQRScan : QRImage → Option String
  | .withCode s => some s
  | .noCode => none

/-- POST /api/qr/entrance (src/server.js lines 343-347): JSON.stringify the
    request body and render it as a QR image. -/
def qrEntrance {J : Type} (stringify : J → String) (body : J) : ImageInput :=
  toDataURL (stringify body)

/-- POST /api/qr/exit (src/server.js lines 350-354): stringify the
    single-field payload with the request's entranceId and render it. -/
def qrExit (stringifyExit : Option String → String)
    (entranceId : Option String) : ImageInput :=
  toDataURL (stringifyExit entranceId)

/-- POST /api/qr/decode (src/server.js lines 359-369): load the image (an
    unloadable input propagates the loadImage error, the handler has no
    try/catch), scan with jsQR, and reply with the JSON.parse of the code
    data, or null when no code was found. -/
def qrDecode {J : Type} (parse : String → J) (image : ImageInput) :
    Except String (Option J) :=
  match loadImage image with
  | .error e => .error e
  | .ok img =>
    match jsQRScan img with
    | some dat => .ok (some (parse dat))
    | none => .ok none

/-! ## Admin collection -/

/-- A document of the "admininfo" collection.  firebaseUid, isRegistered
    and updatedAt are absent until PATCH /api/admin/update-by-email sets
    them. -/
structure Admin where
  _id : String
  name : String
  email : String
  phone : String
  createdAt : Nat
  firebaseUid : Option String
  isRegistered : Option Bool
  updatedAt : Option Nat
  deriving DecidableEq, Repr

/-- POST /api/admin (src/server.js lines 373-392): 400 on a falsy field,
    409 when an admin with that exact email exists, else insertOne with
    createdAt now. -/
def adminAdd (db : List Admin) (name email phone : Option String)
    (newId : String) (now : Nat) : Nat × List Admin :=
  if !truthyStr name || !truthyStr email || !truthyStr phone then (400, db)
  else if db.any (fun a => a.email = email.getD "") then (409, db)
  else (201, db ++ [⟨newId, name.getD "", email.getD "", phone.getD "", now, none, none, none⟩])

/-- GET /api/admin/:id (src/server.js lines 407-428): 400 on an invalid
    ObjectId, 404 when no admin has that id, else the admin. -/
def adminGet (db : List Admin) (id : String) : Nat × Option Admin :=
  if !objectIdIsValid id then (400, none)
  else
    match db.find? (fun a => a._id = id) with
    | none => (404, none)
    | some a => (200, some a)

/-- The $set applied by PATCH /api/admin/update-by-email. -/
def linkAdmin (a : Admin) (fuid : String) (now : Nat) : Admin :=
  { a with firebaseUid := some fuid, isRegistered := some true, updatedAt := some now }

/-- updateOne on "admininfo" filtered by exact email: link the first
    matching admin. -/
def updateAdminByEmail : List Admin → String → String → Nat → List Admin
  | [], _, _, _ => []
  | a :: rest, em, fuid, now =>
    if a.email = em then linkAdmin a fuid now :: rest
    else a :: updateAdminByEmail rest em fuid now

/-- Whether some admin's stored email equals the string exactly. -/
def adminEmailMatched (db : List Admin) (em : String) : Bool :=
  db.any (fun a => a.email = em)

/-- The JavaScript String.prototype.trim: strip whitespace from both
    ends. -/
def jsTrim (s : String) : String :=
  String.mk (((s.data.dropWhile Char.isWhitespace).reverse.dropWhile Char.isWhitespace).reverse)

/-- The JavaScript String.prototype.toLowerCase on the basic latin
    range. -/
def jsToLowerCase (s : String) : String :=
  String.mk (s.data.map Char.toLower)

/-- PATCH /api/admin/update-by-email (src/server.js lines 448-481): 400 on
    a falsy email or firebaseUid; otherwise updateOne filtered by the
    trimmed, lowercased request email compared EXACTLY against the stored
    email; 404 when nothing matched, else 200 after setting firebaseUid,
    isRegistered true and updatedAt now. -/
def adminUpdateByEmail (db : List Admin) (email firebaseUid : Option String)
    (now : Nat) : Nat × List Admin :=
  if !truthyStr email || !truthyStr firebaseUid then (400, db)
  else
    let em := jsToLowerCase (jsTrim (email.getD ""))
    if !adminEmailMatched db em then (404, db)
    else (200, updateAdminByEmail db em (firebaseUid.getD "") now)

/-- deleteOne on "admininfo". -/
def deleteAdminFirst : List Admin → String → List Admin
  | [], _ => []
  | a :: rest, id => if a._id = id then rest else a :: deleteAdminFirst rest id

/-- DELETE /api/admin/:id (src/server.js lines 503-542): 400 on an invalid
    ObjectId, 404 when no admin has that id, 400 when the admin has no
    linked firebaseUid, else delete from Firebase then from the store
    (the Firebase deletion is modelled as succeeding). -/
def adminDelete (db : List Admin) (id : String) : Nat × List Admin :=
  if !objectIdIsValid id then (400, db)
  else
    match db.find? (fun a => a._id = id) with
    | none => (404, db)
    | some a =>
      match a.firebaseUid with
      | none => (400, db)
      | some _ => (200, deleteAdminFirst db id)

/-! ## Charge-control collection

The charge documents are modelled with the same open field map as parking
documents, since PATCH /api/charge-control/:id merge-patches an arbitrary
request body. -/

/-- PATCH /api/charge-control/:id (src/server.js lines 590-611): 400 when
    the body is empty; the ObjectId constructor error on a malformed id is
    caught, giving 500; otherwise updateOne, 404 on no match. -/
def chargeUpdate (db : List PDoc) (id : String) (updates : BDoc) : Nat × List PDoc :=
  if updates = [] then (400, db)
  else if !objectIdIsValid id then (500, db)
  else if !db.any (fun d => d._id = id) then (404, db)
  else (200, updateDocFields db id updates)

/-- deleteOne on "chargeControls". -/
def deletePDocFirst : List PDoc → String → List PDoc
  | [], _ => []
  | d :: rest, id => if d._id = id then rest else d :: deletePDocFirst rest id

/-- DELETE /api/charge-control/:id (src/server.js lines 614-628): the
    ObjectId constructor error on a malformed id is caught, giving 500;
    otherwise deleteOne, 404 when nothing was deleted. -/
def chargeDelete (db : List PDoc) (id : String) : Nat × List PDoc :=
  if !objectIdIsValid id then (500, db)
  else if !db.any (fun d => d._id = id) then (404, db)
  else (200, deletePDocFirst db id)

/-! ## The duplicated source file src/unnamed/part_000

src/unnamed/part_000 repeats the route handlers of src/server.js for the
slot, parking-session and QR endpoints and for admin creation (its lines
39-392).  Each handler below is embedded from part_000; the collection
types and the Mongo-level helpers (updateOne, deleteOne, sort, aggregation
stages) are the shared external infrastructure and are reused. -/

namespace Part000

/-- POST /api/slots (src/unnamed/part_000 lines 39-60). -/
def addSlot (slots : List Slot) (slotNumber vehicleType status : Option String)
    (newId : String) : Nat × List Slot :=
  let st := status.getD "free"
  if !truthyStr slotNumber || !truthyStr vehicleType then (400, slots)
  else (201, slots ++ [⟨newId, slotNumber.getD "", vehicleType.getD "", st⟩])

/-- GET /api/slots (src/unnamed/part_000 lines 64-77). -/
def listSlots (slots : List Slot) : Nat × List Slot :=
  (200, sortSlotsAsc slots)

/-- PATCH /api/slots-status-update/:slotId (src/unnamed/part_000 lines
    80-127). -/
def slotsStatusUpdate (slots : List Slot) (slotId : String) (status : Option String) :
    SlotOutcome :=
  if !objectIdIsValid slotId then ⟨400, slots, 0⟩
  else if !truthyStr status then ⟨400, slots, 0⟩
  else
    let st := status.getD ""
    if !allowedStatus.contains st then ⟨400, slots, 0⟩
    else
      let slots2 := updateSlotStatus slots slotId st
      if !slotMatched slots slotId then ⟨404, slots, 0⟩
      else ⟨200, slots2, 1⟩

/-- PATCH /api/slots-update-slotNumber-vehicleType/:id (src/unnamed/part_000
    lines 130-169). -/
def slotsUpdateFields (slots : List Slot) (id : String)
    (slotNumber vehicleType : Option String) : Nat × List Slot :=
  if slotNumber = none ∧ vehicleType = none then (400, slots)
  else if !objectIdIsValid id then (500, slots)
  else if !slotMatched slots id then (404, slots)
  else (200, updateSlotNumberType slots id slotNumber vehicleType)

/-- DELETE /api/slots/:id (src/unnamed/part_000 lines 172-186). -/
def slotsDelete (slots : List Slot) (id : String) : Nat × List Slot :=
  if !objectIdIsValid id then (500, slots)
  else if !slotMatched slots id then (404, slots)
  else (200, deleteSlotFirst slots id)

/-- GET /api/slots/available (src/unnamed/part_000 lines 189-215). -/
def slotsAvailable (slots : List Slot) : List (String × Nat) :=
  (distinctKeys ((freeSlots slots).map (fun s => s.vehicleType))).map
    (fun c => (c, countFree slots c))

/-- POST /api/parking/book (src/unnamed/part_000 lines 220-238). -/
def parkingBook (db : List PDoc) (newId : String) (b : BookBody) (now : Nat) :
    ParkingOutcome :=
  ⟨201, db ++ [⟨newId, bookedDoc b now⟩], 1⟩

/-- GET /api/parking/user-current-parking (src/unnamed/part_000 lines
    241-261). -/
def userCurrentParking (db : List PDoc) (uid : Option String) : ParkingQueryOutcome :=
  if !truthyStr uid then ⟨400, []⟩
  else
    let u := uid.getD ""
    ⟨200, sortByBookingDesc (db.filter (fun d => uidMatches d u && statusIn d activeStatuses))⟩

/-- GET /api/parking/user-history (src/unnamed/part_000 lines 264-284). -/
def userHistory (db : List PDoc) (uid : Option String) : ParkingQueryOutcome :=
  if !truthyStr uid then ⟨400, []⟩
  else
    let u := uid.getD ""
    ⟨200, sortByBookingDesc (db.filter (fun d => uidMatches d u && statusIn d historyStatuses))⟩

/-- GET /api/parking (src/unnamed/part_000 lines 287-300). -/
def parkingList (db : List PDoc) : Nat × List PDoc :=
  (200, sortByEntryDesc db)

/-- PATCH /api/parking/:entranceId (src/unnamed/part_000 lines 303-311). -/
def parkingPatch (db : List PDoc) (entranceId : String) (body : BDoc) :
    ParkingPatchResult :=
  if !objectIdIsValid entranceId then .errorThrown
  else .ok (updateDocFields db entranceId body) 200 1

/-- GET /api/parking/times (src/unnamed/part_000 lines 314-337). -/
def parkingTimes (db : List PDoc) (parkingId userId : Option String) :
    Nat × List BDoc :=
  if truthyStr parkingId && !objectIdIsValid (parkingId.getD "") then (500, [])
  else
    let pq : Option String := if truthyStr parkingId then some (parkingId.getD "") else none
    let uq : Option String := if truthyStr userId then some (userId.getD "") else none
    (200, (db.filter (fun d => timesFilter d pq uq)).map projectTimes)

/-- POST /api/qr/entrance (src/unnamed/part_000 lines 343-347). -/
def qrEntrance {J : Type} (stringify : J → String) (body : J) : ImageInput :=
  toDataURL (stringify body)

/-- POST /api/qr/exit (src/unnamed/part_000 lines 350-354). -/
def qrExit (stringifyExit : Option String → String)
    (entranceId : Option String) : ImageInput :=
  toDataURL (stringifyExit entranceId)

/-- POST /api/qr/decode (src/unnamed/part_000 lines 359-369). -/
def qrDecode {J : Type} (parse : String → J) (image : ImageInput) :
    Except String (Option J) :=
  match loadImage image with
  | .error e => .error e
  | .ok img =>
    match jsQRScan img with
    | some dat => .ok (some (parse dat))
    | none => .ok none

/-- POST /api/admin (src/unnamed/part_000 lines 373-392). -/
def adminAdd (db : List Admin) (name email phone : Option String)
    (newId : String) (now : Nat) : Nat × List Admin :=
  if !truthyStr name || !truthyStr email || !truthyStr phone then (400, db)
  else if db.any (fun a => a.email = email.getD "") then (409, db)
  else (201, db ++ [⟨newId, name.getD "", email.getD "", phone.getD "", now, none, none, none⟩])

end Part000

/-! ## Helper lemmas -/

/-- A filter whose predicate fails on every element yields the empty list. -/
theorem filter_false_nil {α : Type} (p : α → Bool) (l : List α)
    (h : ∀ a ∈ l, p a = false) : l.filter p = [] := by
  induction l with
  | nil => rfl
  | cons a rest ih =>
    rw [List.filter_cons, h a (by simp)]
    exact ih (fun b hb => h b (by simp [hb]))

/-- Two filters commute. -/
theorem filter_swap {α : Type} (p q : α → Bool) (l : List α) :
    (l.filter p).filter q = (l.filter q).filter p := by
  induction l with
  | nil => rfl
  | cons a rest ih =>
    by_cases hp : p a <;> by_cases hq : q a <;>
      simp [List.filter_cons, hp, hq, ih]

/-- updateOne on "parking" with no matching _id leaves the collection
    unchanged. -/
theorem updateDocFields_no_match (db : List PDoc) (id : String) (body : BDoc)
    (h : ∀ e ∈ db, e._id ≠ id) : updateDocFields db id body = db := by
  induction db with
  | nil => rfl
  | cons d rest ih =>
    rw [updateDocFields, if_neg (h d (by simp))]
    rw [ih (fun e he => h e (by simp [he]))]

/-- updateOne on "parking" merges the body into the first matching
    document and leaves everything else unchanged. -/
theorem updateDocFields_found (pre : List PDoc) (d : PDoc) (post : List PDoc)
    (id : String) (body : BDoc)
    (hpre : ∀ e ∈ pre, e._id ≠ id) (hd : d._id = id) :
    updateDocFields (pre ++ d :: post) id body
      = pre ++ { d with fields := setFields d.fields body } :: post := by
  induction pre with
  | nil => simp [updateDocFields, if_pos hd]
  | cons e rest ih =>
    rw [List.cons_append, updateDocFields, if_neg (hpre e (by simp))]
    rw [ih (fun x hx => hpre x (by simp [hx]))]
    rfl

/-! ## Claim C10 -/

/-- Claim C10: every endpoint defined in the duplicated source file
    src/unnamed/part_000 (slot create/list/status-update/field-update/
    delete, slot availability, session book/current/history/list/patch/
    times, QR entrance/exit/decode, admin create) is behaviorally
    identical, for every input and store state, to the endpoint with the
    same method and path in src/server.js. -/
theorem part000_equivalence :
    Part000.addSlot = addSlot
    ∧ Part000.listSlots = listSlots
    ∧ Part000.slotsStatusUpdate = slotsStatusUpdate
    ∧ Part000.slotsUpdateFields = slotsUpdateFields
    ∧ Part000.slotsDelete = slotsDelete
    ∧ Part000.slotsAvailable = slotsAvailable
    ∧ Part000.parkingBook = parkingBook
    ∧ Part000.userCurrentParking = userCurrentParking
    ∧ Part000.userHistory = userHistory
    ∧ Part000.parkingList = parkingList
    ∧ Part000.parkingPatch = parkingPatch
    ∧ Part000.parkingTimes = parkingTimes
    ∧ (@Part000.qrEntrance = @qrEntrance)
    ∧ Part000.qrExit = qrExit
    ∧ (@Part000.qrDecode = @qrDecode)
    ∧ Part000.adminAdd = adminAdd :=
  ⟨rfl, rfl, rfl, rfl, rfl, rfl, rfl, rfl, rfl, rfl, rfl, rfl, rfl, rfl, rfl, rfl⟩

/-! ## Claim C1 -/

/-- Claim C1, counterexample: the session inserted by the book operation
    has status "inital" (the source's spelling), not "initial" as the
    claim states. -/
theorem book_status_cex :
    (parkingBook [] "aaaaaaaaaaaaaaaaaaaaaaaa"
        ⟨BVal.vstr "u1", BVal.vstr "car", BVal.vstr "Ann", BVal.vstr "a@b.c", BVal.vstr "017"⟩
        0).parking.map (fun d => getField d.fields "status")
      = [some (BVal.vstr "inital")]
    ∧ [some (BVal.vstr "inital")] ≠ [some (BVal.vstr "initial")] := by
  decide

/-- Claim C1 (amended: the status string is "inital", the source's
    spelling): the book operation inserts exactly one new parking-session
    record, with status "inital", null slotNumber/entryTime/exitTime/
    paidAmount, booking_time the current time, 201, and exactly one Change
    Notifier broadcast. -/
theorem parkingBook_spec (db : List PDoc) (newId : String) (b : BookBody) (now : Nat) :
    (parkingBook db newId b now).httpStatus = 201
    ∧ (parkingBook db newId b now).parking = db ++ [⟨newId, bookedDoc b now⟩]
    ∧ (parkingBook db newId b now).parking.length = db.length + 1
    ∧ (parkingBook db newId b now).notifications = 1
    ∧ getField (bookedDoc b now) "status" = some (BVal.vstr "inital")
    ∧ getField (bookedDoc b now) "slotNumber" = some BVal.vnull
    ∧ getField (bookedDoc b now) "entryTime" = some BVal.vnull
    ∧ getField (bookedDoc b now) "exitTime" = some BVal.vnull
    ∧ getField (bookedDoc b now) "paidAmount" = some BVal.vnull
    ∧ getField (bookedDoc b now) "booking_time" = some (BVal.vdate now) :=
  ⟨rfl, rfl, by simp [parkingBook], rfl, rfl, rfl, rfl, rfl, rfl, rfl⟩

/-! ## Claim C6 -/

/-- Claim C6: for any JSON codec in which parsing inverts serialization
    (the contract of the external JSON library), encoding a payload with
    the QR entrance endpoint and decoding the resulting image returns the
    original payload; decoding a loadable image with no code returns null;
    decoding an unloadable input surfaces a loadImage error, which is
    distinct from the null result. -/
theorem qrCodec_spec {J : Type} (stringify : J → String) (parse : String → J)
    (hinv : ∀ j, parse (stringify j) = j) (p : J) :
    qrDecode parse (qrEntrance stringify p) = .ok (some p)
    ∧ qrDecode parse (ImageInput.loadable QRImage.noCode) = .ok (none : Option J)
    ∧ qrDecode parse ImageInput.unloadable = .error "Unsupported image type"
    ∧ (∀ e : String, (Except.error e : Except String (Option J)) ≠ .ok none) := by
  refine ⟨?_, rfl, rfl, ?_⟩
  · simp [qrDecode, qrEntrance, toDataURL, loadImage, jsQRScan, hinv]
  · intro e h
    exact Except.noConfusion h

/-- Claim C6, witness: the round trip at the identity codec on a concrete
    payload. -/
theorem qrCodec_witness :
    qrDecode (fun s : String => s) (qrEntrance (fun s : String => s) "gate-7")
      = .ok (some "gate-7") :=
  (qrCodec_spec (fun s : String => s) (fun s => s) (fun _ => rfl) "gate-7").1

/-! ## Claim C3 -/

/-- Claim C3: the session patch operation, on any well-formed id, merge-
    patches the supplied fields (no whitelist, no status validation) onto
    the first matching session, triggers the Change Notifier exactly once
    even when no session has that id, and answers 200 with one broadcast
    in both cases, so the response does not distinguish them. -/
theorem parkingPatch_spec (id : String) (body : BDoc)
    (hval : objectIdIsValid id = true) :
    (∀ (pre : List PDoc) (d : PDoc) (post : List PDoc),
        (∀ e ∈ pre, e._id ≠ id) → d._id = id →
        parkingPatch (pre ++ d :: post) id body
          = .ok (pre ++ { d with fields := setFields d.fields body } :: post) 200 1)
    ∧ (∀ db : List PDoc, (∀ e ∈ db, e._id ≠ id) →
        parkingPatch db id body = .ok db 200 1) := by
  constructor
  · intro pre d post hpre hd
    rw [parkingPatch, hval]
    simp [updateDocFields_found pre d post id body hpre hd]
  · intro db h
    rw [parkingPatch, hval]
    simp [updateDocFields_no_match db id body h]

/-- Claim C3, witness: a patch of the status field at a concrete store
    with the matching session, and at the empty store where no session
    matches, both answering 200 with one broadcast. -/
theorem parkingPatch_witness :
    parkingPatch [⟨"aaaaaaaaaaaaaaaaaaaaaaaa", []⟩] "aaaaaaaaaaaaaaaaaaaaaaaa"
        [("status", BVal.vstr "completed")]
      = .ok [⟨"aaaaaaaaaaaaaaaaaaaaaaaa", [("status", BVal.vstr "completed")]⟩] 200 1
    ∧ parkingPatch [] "aaaaaaaaaaaaaaaaaaaaaaaa" [("status", BVal.vstr "completed")]
      = .ok [] 200 1 := by
  have h := parkingPatch_spec "aaaaaaaaaaaaaaaaaaaaaaaa"
    [("status", BVal.vstr "completed")] (by decide)
  exact ⟨h.1 [] ⟨"aaaaaaaaaaaaaaaaaaaaaaaa", []⟩ [] (by simp) rfl, h.2 [] (by simp)⟩

/-! ## Claim C4 -/

/-- Looking a key up in a list of pairs whose second component is a
    function of the first finds the function value exactly when the key
    occurs. -/
theorem lookupCount_map_self (f : String → Nat) (l : List String) (cat : String) :
    lookupCount (l.map (fun c => (c, f c))) cat
      = if cat ∈ l then some (f cat) else none := by
  induction l with
  | nil => rfl
  | cons k rest ih =>
    simp only [List.map_cons, lookupCount]
    by_cases hk : k = cat
    · subst hk
      simp
    · rw [if_neg hk, ih]
      have hck : ¬cat = k := fun h => hk h.symm
      by_cases hc : cat ∈ rest
      · rw [if_pos hc, if_pos (by simp [hc])]
      · rw [if_neg hc, if_neg (by simp [List.mem_cons, hck, hc])]

/-- Membership in distinctKeysAux: in the remaining input and not yet
    seen. -/
theorem mem_distinctKeysAux (l : List String) (seen : List String) (x : String) :
    x ∈ distinctKeysAux seen l ↔ (x ∈ l ∧ x ∉ seen) := by
  induction l generalizing seen with
  | nil => simp [distinctKeysAux]
  | cons k rest ih =>
    rw [distinctKeysAux]
    by_cases hk : k ∈ seen
    · rw [if_pos hk, ih]
      constructor
      · rintro ⟨h1, h2⟩
        exact ⟨by simp [h1], h2⟩
      · rintro ⟨h1, h2⟩
        rcases List.mem_cons.1 h1 with h | h
        · exact absurd (h ▸ hk) h2
        · exact ⟨h, h2⟩
    · rw [if_neg hk]
      constructor
      · intro h
        rcases List.mem_cons.1 h with h | h
        · exact ⟨by simp [h], h ▸ hk⟩
        · rcases (ih (k :: seen)).1 h with ⟨h1, h2⟩
          exact ⟨by simp [h1], fun hx => h2 (by simp [hx])⟩
      · rintro ⟨h1, h2⟩
        rcases List.mem_cons.1 h1 with h | h
        · exact h ▸ List.mem_cons_self x _
        · by_cases hxk : x = k
          · exact hxk ▸ List.mem_cons_self x _
          · exact List.mem_cons_of_mem _ ((ih (k :: seen)).2 ⟨h, by simp [hxk, h2]⟩)

/-- Membership in distinctKeys is membership in the input. -/
theorem mem_distinctKeys (l : List String) (x : String) :
    x ∈ distinctKeys l ↔ x ∈ l := by
  simp [distinctKeys, mem_distinctKeysAux]

/-- A vehicle type occurs among the free slots exactly when its free
    count is positive. -/
theorem countFree_pos_iff (slots : List Slot) (cat : String) :
    cat ∈ (freeSlots slots).map (fun s => s.vehicleType) ↔ 0 < countFree slots cat := by
  rw [countFree, List.length_pos_iff_exists_mem]
  constructor
  · intro h
    rcases List.mem_map.1 h with ⟨s, hs, hcat⟩
    exact ⟨s, List.mem_filter.2 ⟨hs, by simp [hcat]⟩⟩
  · rintro ⟨s, hs⟩
    rcases List.mem_filter.1 hs with ⟨hmem, hcat⟩
    exact List.mem_map.2 ⟨s, hmem, by simpa using hcat⟩

/-- The free count filters the status first and the category second; the
    two filters commute. -/
theorem countFree_eq_swap (slots : List Slot) (cat : String) :
    countFree slots cat
      = ((slots.filter (fun s => s.vehicleType == cat)).filter
          (fun s => s.status == "free")).length := by
  rw [countFree, freeSlots, filter_swap]

/-- Claim C4: the availability aggregation reports, per vehicle category,
    the count of free slots of that category; a category with no free slot
    contributes no entry; and the entry of a category depends only on the
    slots of that category, so changes confined to other categories leave
    it unchanged. -/
theorem slotsAvailable_spec (slots slots' : List Slot) (cat : String) :
    lookupCount (slotsAvailable slots) cat
      = (if countFree slots cat = 0 then none else some (countFree slots cat))
    ∧ (slots.filter (fun s => s.vehicleType == cat)
          = slots'.filter (fun s => s.vehicleType == cat) →
        lookupCount (slotsAvailable slots) cat = lookupCount (slotsAvailable slots') cat) := by
  have main : ∀ sl : List Slot,
      lookupCount (slotsAvailable sl) cat
        = (if countFree sl cat = 0 then none else some (countFree sl cat)) := by
    intro sl
    rw [slotsAvailable, lookupCount_map_self]
    by_cases h : cat ∈ (freeSlots sl).map (fun s => s.vehicleType)
    · rw [if_pos ((mem_distinctKeys _ _).2 h)]
      rw [if_neg (Nat.pos_iff_ne_zero.1 ((countFree_pos_iff sl cat).1 h))]
    · rw [if_neg (fun hm => h ((mem_distinctKeys _ _).1 hm))]
      have : ¬0 < countFree sl cat := fun hp => h ((countFree_pos_iff sl cat).2 hp)
      rw [if_pos (Nat.eq_zero_of_not_pos this)]
  refine ⟨main slots, fun hfil => ?_⟩
  have hcount : countFree slots cat = countFree slots' cat := by
    rw [countFree_eq_swap, countFree_eq_swap, hfil]
  rw [main slots, main slots', hcount]

/-- Claim C4, witness: a store where every car slot is booked reports no
    car entry, and a store differing only in its car slots reports the
    same bike count. -/
theorem slotsAvailable_witness :
    lookupCount (slotsAvailable
        [⟨"aaaaaaaaaaaaaaaaaaaaaaaa", "A1", "car", "booked"⟩,
         ⟨"bbbbbbbbbbbbbbbbbbbbbbbb", "B1", "bike", "free"⟩]) "car" = none
    ∧ lookupCount (slotsAvailable
        [⟨"aaaaaaaaaaaaaaaaaaaaaaaa", "A1", "car", "booked"⟩,
         ⟨"bbbbbbbbbbbbbbbbbbbbbbbb", "B1", "bike", "free"⟩]) "bike"
      = lookupCount (slotsAvailable
        [⟨"aaaaaaaaaaaaaaaaaaaaaaaa", "A1", "car", "free"⟩,
         ⟨"bbbbbbbbbbbbbbbbbbbbbbbb", "B1", "bike", "free"⟩]) "bike" :=
  ⟨(slotsAvailable_spec
      [⟨"aaaaaaaaaaaaaaaaaaaaaaaa", "A1", "car", "booked"⟩,
       ⟨"bbbbbbbbbbbbbbbbbbbbbbbb", "B1", "bike", "free"⟩]
      [⟨"aaaaaaaaaaaaaaaaaaaaaaaa", "A1", "car", "free"⟩,
       ⟨"bbbbbbbbbbbbbbbbbbbbbbbb", "B1", "bike", "free"⟩] "car").1.trans (by decide),
   (slotsAvailable_spec
      [⟨"aaaaaaaaaaaaaaaaaaaaaaaa", "A1", "car", "booked"⟩,
       ⟨"bbbbbbbbbbbbbbbbbbbbbbbb", "B1", "bike", "free"⟩]
      [⟨"aaaaaaaaaaaaaaaaaaaaaaaa", "A1", "car", "free"⟩,
       ⟨"bbbbbbbbbbbbbbbbbbbbbbbb", "B1", "bike", "free"⟩] "bike").2 (by decide)⟩

/-! ## Claim C5 -/

/-- Whether an optional status request value lies outside the allowed
    set {free, booked}; a missing status counts as outside. -/
def statusOutside (status : Option String) : Bool :=
  match status with
  | none => true
  | some s => !(s = "free" || s = "booked")

/-- updateOne on "slots" with no matching _id leaves the collection
    unchanged. -/
theorem updateSlotStatus_no_match (slots : List Slot) (slotId st : String)
    (h : slotMatched slots slotId = false) :
    updateSlotStatus slots slotId st = slots := by
  induction slots with
  | nil => rfl
  | cons s rest ih =>
    have hs : ¬s._id = slotId := by
      intro he
      simp [slotMatched, he] at h
    rw [updateSlotStatus, if_neg hs, ih]
    simp only [slotMatched, List.any_cons, Bool.or_eq_false_iff] at h
    exact h.2

/-- Claim C5: with a status outside {free, booked} (or missing), the slot
    status update answers 400, leaves the stored slots unchanged and does
    not broadcast; with a well-formed id, an allowed status and no
    matching slot it answers 404, also without mutation or broadcast. -/
theorem slotsStatusUpdate_spec (slots : List Slot) (slotId : String)
    (status : Option String) :
    (statusOutside status = true →
        slotsStatusUpdate slots slotId status = ⟨400, slots, 0⟩)
    ∧ (objectIdIsValid slotId = true → statusOutside status = false →
        slotMatched slots slotId = false →
        slotsStatusUpdate slots slotId status = ⟨404, slots, 0⟩) := by
  constructor
  · intro hout
    rw [slotsStatusUpdate]
    by_cases hid : objectIdIsValid slotId
    · rw [hid]
      match status with
      | none => rfl
      | some s =>
        by_cases hempty : s = ""
        · subst hempty; rfl
        · have hfree : ¬(s = "free" ∨ s = "booked") := by
            intro h
            rcases h with h | h <;> simp [statusOutside, h] at hout
          have hmem : s ∉ allowedStatus := by
            simpa [allowedStatus] using hfree
          simp [truthyStr, hempty, hmem]
    · simp [hid]
  · intro hid hin hmatch
    rw [slotsStatusUpdate, hid]
    match status with
    | none => simp [statusOutside] at hin
    | some s =>
      have hs : s = "free" ∨ s = "booked" := by
        by_contra h
        push_neg at h
        simp [statusOutside, h.1, h.2] at hin
      have hempty : ¬s = "" := by
        rcases hs with h | h <;> simp [h]
      have hmem : s ∈ allowedStatus := by
        rcases hs with h | h <;> simp [allowedStatus, h]
      simp [truthyStr, hempty, hmem, hmatch]

/-- Claim C5, witness: a rejected status value and a well-formed unmatched
    id at a concrete one-slot store. -/
theorem slotsStatusUpdate_witness :
    slotsStatusUpdate [⟨"aaaaaaaaaaaaaaaaaaaaaaaa", "A1", "car", "free"⟩]
        "ffffffffffffffffffffffff" (some "occupied")
      = ⟨400, [⟨"aaaaaaaaaaaaaaaaaaaaaaaa", "A1", "car", "free"⟩], 0⟩
    ∧ slotsStatusUpdate [⟨"aaaaaaaaaaaaaaaaaaaaaaaa", "A1", "car", "free"⟩]
        "ffffffffffffffffffffffff" (some "booked")
      = ⟨404, [⟨"aaaaaaaaaaaaaaaaaaaaaaaa", "A1", "car", "free"⟩], 0⟩ :=
  ⟨(slotsStatusUpdate_spec [⟨"aaaaaaaaaaaaaaaaaaaaaaaa", "A1", "car", "free"⟩]
      "ffffffffffffffffffffffff" (some "occupied")).1 (by decide),
   (slotsStatusUpdate_spec [⟨"aaaaaaaaaaaaaaaaaaaaaaaa", "A1", "car", "free"⟩]
      "ffffffffffffffffffffffff" (some "booked")).2 (by decide) (by decide) (by decide)⟩

/-! ## Claim C7 -/

/-- Claim C7, counterexample: slot delete with a malformed id answers 500
    (the ObjectId constructor error caught by the generic handler), not
    400 as the claim states. -/
theorem slotsDelete_malformed_cex :
    slotsDelete [⟨"aaaaaaaaaaaaaaaaaaaaaaaa", "A1", "car", "free"⟩] "xyz"
      = (500, [⟨"aaaaaaaaaaaaaaaaaaaaaaaa", "A1", "car", "free"⟩])
    ∧ (500 : Nat) ≠ 400 := by
  decide

/-- Claim C7 (amended): on an identifier that is not a well-formed
    ObjectId, no endpoint mutates its store, but only the slot status
    update, admin get and admin delete answer 400; slot field update
    (given a field to set), slot delete, charge-rule update (given a
    nonempty body) and charge-rule delete answer 500 from their catch
    blocks, and the session patch lets the ObjectId error escape the
    handler. -/
theorem malformedId_spec (id : String) (hid : objectIdIsValid id = false)
    (slots : List Slot) (pdb cdb : List PDoc) (adb : List Admin)
    (st sn vt : Option String) (body updates : BDoc) :
    slotsStatusUpdate slots id st = ⟨400, slots, 0⟩
    ∧ (¬(sn = none ∧ vt = none) → slotsUpdateFields slots id sn vt = (500, slots))
    ∧ slotsDelete slots id = (500, slots)
    ∧ parkingPatch pdb id body = .errorThrown
    ∧ (updates ≠ [] → chargeUpdate cdb id updates = (500, cdb))
    ∧ chargeDelete cdb id = (500, cdb)
    ∧ adminGet adb id = (400, none)
    ∧ adminDelete adb id = (400, adb) := by
  refine ⟨?_, ?_, ?_, ?_, ?_, ?_, ?_, ?_⟩
  · simp [slotsStatusUpdate, hid]
  · intro h
    simp [slotsUpdateFields, hid, h]
  · simp [slotsDelete, hid]
  · simp [parkingPatch, hid]
  · intro h
    simp [chargeUpdate, hid, h]
  · simp [chargeDelete, hid]
  · simp [adminGet, hid]
  · simp [adminDelete, hid]

/-- Claim C7, witness: the malformed identifier "xyz" at concrete
    one-record stores. -/
theorem malformedId_witness :
    slotsStatusUpdate [⟨"aaaaaaaaaaaaaaaaaaaaaaaa", "A1", "car", "free"⟩] "xyz"
        (some "booked")
      = ⟨400, [⟨"aaaaaaaaaaaaaaaaaaaaaaaa", "A1", "car", "free"⟩], 0⟩
    ∧ slotsUpdateFields [⟨"aaaaaaaaaaaaaaaaaaaaaaaa", "A1", "car", "free"⟩] "xyz"
        (some "A2") none
      = (500, [⟨"aaaaaaaaaaaaaaaaaaaaaaaa", "A1", "car", "free"⟩])
    ∧ parkingPatch [] "xyz" [("status", BVal.vstr "parked")] = .errorThrown
    ∧ chargeUpdate [] "xyz" [("chargePerMinutes", BVal.vnum 2)] = (500, [])
    ∧ adminDelete [] "xyz" = (400, []) := by
  have h := malformedId_spec "xyz" (by decide)
    [⟨"aaaaaaaaaaaaaaaaaaaaaaaa", "A1", "car", "free"⟩] [] [] []
    (some "booked") (some "A2") none [("status", BVal.vstr "parked")]
    [("chargePerMinutes", BVal.vnum 2)]
  exact ⟨h.1, h.2.1 (by simp), h.2.2.2.1, h.2.2.2.2.1 (by simp), h.2.2.2.2.2.2.2⟩

/-! ## Claim C8 -/

/-- Claim C8: the times query builds its per-user filter on a field named
    userId, but the book operation records the user under the field uid
    and nothing ever writes a userId field, so querying times for the very
    user who booked the only stored session returns the empty list instead
    of that session's projection. -/
theorem parkingTimes_userId_bug :
    (parkingBook [] "dddddddddddddddddddddddd"
        ⟨BVal.vstr "u1", BVal.vstr "car", BVal.vstr "Ann", BVal.vstr "a@b.c", BVal.vstr "017"⟩
        3).parking.map (fun d => getField d.fields "uid")
      = [some (BVal.vstr "u1")]
    ∧ parkingTimes
        (parkingBook [] "dddddddddddddddddddddddd"
          ⟨BVal.vstr "u1", BVal.vstr "car", BVal.vstr "Ann", BVal.vstr "a@b.c", BVal.vstr "017"⟩
          3).parking
        none (some "u1")
      = (200, []) := by
  decide

/-! ## Claim C9 -/

/-- Claim C9, counterexample: the stored admin's email "A@b.c" equals the
    request email "a@B.C" up to letter case, yet the update answers 404
    and links nothing, because only the request side is lowercased and the
    comparison against the stored email is exact. -/
theorem adminUpdateByEmail_case_cex :
    adminUpdateByEmail
        [⟨"eeeeeeeeeeeeeeeeeeeeeeee", "Nadia", "A@b.c", "017", 0, none, none, none⟩]
        (some "a@B.C") (some "fb-1") 7
      = (404, [⟨"eeeeeeeeeeeeeeeeeeeeeeee", "Nadia", "A@b.c", "017", 0, none, none, none⟩])
    ∧ jsToLowerCase "A@b.c" = jsToLowerCase (jsTrim "a@B.C") := by
  decide

/-- updateOne on "admininfo" by exact email links the first matching
    admin and leaves everything else unchanged. -/
theorem updateAdminByEmail_found (pre : List Admin) (a : Admin) (post : List Admin)
    (em fuid : String) (now : Nat)
    (hpre : ∀ b ∈ pre, b.email ≠ em) (ha : a.email = em) :
    updateAdminByEmail (pre ++ a :: post) em fuid now
      = pre ++ linkAdmin a fuid now :: post := by
  induction pre with
  | nil => simp [updateAdminByEmail, if_pos ha]
  | cons e rest ih =>
    rw [List.cons_append, updateAdminByEmail, if_neg (hpre e (by simp))]
    rw [ih (fun x hx => hpre x (by simp [hx]))]
    rfl

/-- Claim C9 (amended): linkIdentity matches the stored email EXACTLY
    against the trimmed, lowercased request email — only admins whose
    stored email is already in that normal form can match; on a match it
    sets the subject id, the registration flag and the update timestamp on
    the first such admin, and it answers NotFound exactly when no stored
    email equals the normalized request email. -/
theorem adminUpdateByEmail_spec (db pre post : List Admin) (a : Admin)
    (email fuid : String) (now : Nat)
    (hem : email ≠ "") (hf : fuid ≠ "") :
    ((∀ b ∈ db, b.email ≠ jsToLowerCase (jsTrim email)) →
        adminUpdateByEmail db (some email) (some fuid) now = (404, db))
    ∧ (db = pre ++ a :: post →
        (∀ b ∈ pre, b.email ≠ jsToLowerCase (jsTrim email)) →
        a.email = jsToLowerCase (jsTrim email) →
        adminUpdateByEmail db (some email) (some fuid) now
          = (200, pre ++ linkAdmin a fuid now :: post)) := by
  constructor
  · intro h
    have hm : adminEmailMatched db (jsToLowerCase (jsTrim email)) = false := by
      simp only [adminEmailMatched, List.any_eq_false, decide_eq_true_eq]
      exact h
    simp [adminUpdateByEmail, truthyStr, hem, hf, hm]
  · intro hdb hpre ha
    subst hdb
    have hm : adminEmailMatched (pre ++ a :: post) (jsToLowerCase (jsTrim email)) = true := by
      simp only [adminEmailMatched, List.any_eq_true, decide_eq_true_eq]
      exact ⟨a, by simp, ha⟩
    have hupd := updateAdminByEmail_found pre a post (jsToLowerCase (jsTrim email))
      fuid now hpre ha
    simp [adminUpdateByEmail, truthyStr, hem, hf, hm, hupd]

/-- Claim C9, witness: a stored admin whose email is already trimmed and
    lowercase is linked; with no matching stored email the update answers
    404. -/
theorem adminUpdateByEmail_witness :
    adminUpdateByEmail
        [⟨"eeeeeeeeeeeeeeeeeeeeeeee", "Nadia", "n@b.c", "017", 0, none, none, none⟩]
        (some "N@b.c") (some "fb-1") 7
      = (200, [⟨"eeeeeeeeeeeeeeeeeeeeeeee", "Nadia", "n@b.c", "017", 0,
          some "fb-1", some true, some 7⟩])
    ∧ adminUpdateByEmail [] (some "N@b.c") (some "fb-1") 7 = (404, []) := by
  have h := adminUpdateByEmail_spec
    [⟨"eeeeeeeeeeeeeeeeeeeeeeee", "Nadia", "n@b.c", "017", 0, none, none, none⟩]
    []
    [] ⟨"eeeeeeeeeeeeeeeeeeeeeeee", "Nadia", "n@b.c", "017", 0, none, none, none⟩
    "N@b.c" "fb-1" 7 (by decide) (by decide)
  have h2 := adminUpdateByEmail_spec []
    [] [] ⟨"eeeeeeeeeeeeeeeeeeeeeeee", "Nadia", "n@b.c", "017", 0, none, none, none⟩
    "N@b.c" "fb-1" 7 (by decide) (by decide)
  constructor
  · have := h.2 rfl (by simp) (by decide)
    simpa [linkAdmin] using this
  · exact h2.1 (by simp)

/-! ## Claim C2 -/

/-- Claim C2, counterexample: booking for "u1" and querying current
    parking returns the one session, but its status is "inital" (the
    source's spelling), not "initial" as the claim states. -/
theorem currentParking_status_cex :
    (userCurrentParking
        (parkingBook [] "cccccccccccccccccccccccc"
          ⟨BVal.vstr "u1", BVal.vstr "car", BVal.vstr "Ann", BVal.vstr "a@b.c", BVal.vstr "017"⟩
          5).parking
        (some "u1")).body.map (fun d => getField d.fields "status")
      = [some (BVal.vstr "inital")]
    ∧ [some (BVal.vstr "inital")] ≠ [some (BVal.vstr "initial")] := by
  decide

/-- Claim C2 (amended: the returned status string is "inital", the
    source's spelling): for a user with no prior sessions, booking then
    querying current parking returns exactly the new session; after
    patching its status to "completed", the history query returns it and
    the current query no longer does. -/
theorem bookLifecycle_spec (db : List PDoc) (u newId : String) (b : BookBody) (now : Nat)
    (hu : u ≠ "")
    (hb : b.uid = BVal.vstr u)
    (hprior : ∀ d ∈ db, uidMatches d u = false)
    (hfresh : ∀ d ∈ db, d._id ≠ newId)
    (hvalid : objectIdIsValid newId = true) :
    (userCurrentParking (parkingBook db newId b now).parking (some u)).body
        = [⟨newId, bookedDoc b now⟩]
    ∧ getField (bookedDoc b now) "status" = some (BVal.vstr "inital")
    ∧ parkingPatch (parkingBook db newId b now).parking newId
          [("status", BVal.vstr "completed")]
        = .ok (db ++ [⟨newId, setFields (bookedDoc b now) [("status", BVal.vstr "completed")]⟩])
            200 1
    ∧ (userHistory
          (db ++ [⟨newId, setFields (bookedDoc b now) [("status", BVal.vstr "completed")]⟩])
          (some u)).body
        = [⟨newId, setFields (bookedDoc b now) [("status", BVal.vstr "completed")]⟩]
    ∧ (userCurrentParking
          (db ++ [⟨newId, setFields (bookedDoc b now) [("status", BVal.vstr "completed")]⟩])
          (some u)).body
        = [] := by
  have hguid : getField (bookedDoc b now) "uid" = some b.uid := rfl
  have hnew_uid : uidMatches ⟨newId, bookedDoc b now⟩ u = true := by
    simp [uidMatches, hguid, hb]
  have hnew_active : statusIn ⟨newId, bookedDoc b now⟩ activeStatuses = true := rfl
  have hpguid :
      getField (setFields (bookedDoc b now) [("status", BVal.vstr "completed")]) "uid"
        = some b.uid := rfl
  have hp_uid :
      uidMatches ⟨newId, setFields (bookedDoc b now) [("status", BVal.vstr "completed")]⟩ u
        = true := by
    simp [uidMatches, hpguid, hb]
  have hp_hist :
      statusIn ⟨newId, setFields (bookedDoc b now) [("status", BVal.vstr "completed")]⟩
        historyStatuses = true := rfl
  have hp_act :
      statusIn ⟨newId, setFields (bookedDoc b now) [("status", BVal.vstr "completed")]⟩
        activeStatuses = false := rfl
  have hdbnilA :
      db.filter (fun d => uidMatches d u && statusIn d activeStatuses) = [] :=
    filter_false_nil _ db (fun d hd => by simp [hprior d hd])
  have hdbnilH :
      db.filter (fun d => uidMatches d u && statusIn d historyStatuses) = [] :=
    filter_false_nil _ db (fun d hd => by simp [hprior d hd])
  refine ⟨?_, rfl, ?_, ?_, ?_⟩
  · show (userCurrentParking (db ++ [⟨newId, bookedDoc b now⟩]) (some u)).body = _
    simp [userCurrentParking, truthyStr, hu, List.filter_append, hdbnilA,
      List.filter_cons, hnew_uid, hnew_active, sortByBookingDesc, pdocInsBookingDesc]
  · show parkingPatch (db ++ [⟨newId, bookedDoc b now⟩]) newId _ = _
    rw [parkingPatch, hvalid]
    simp [updateDocFields_found db ⟨newId, bookedDoc b now⟩ []
      newId [("status", BVal.vstr "completed")] hfresh rfl]
  · simp [userHistory, truthyStr, hu, List.filter_append, hdbnilH,
      List.filter_cons, hp_uid, hp_hist, sortByBookingDesc, pdocInsBookingDesc]
  · simp [userCurrentParking, truthyStr, hu, List.filter_append, hdbnilA,
      List.filter_cons, hp_uid, hp_act, sortByBookingDesc]

/-- Claim C2, witness: the lifecycle at the empty store for user "u1". -/
theorem bookLifecycle_witness :
    (userCurrentParking
        (parkingBook [] "bbbbbbbbbbbbbbbbbbbbbbbb"
          ⟨BVal.vstr "u1", BVal.vstr "car", BVal.vstr "Ann", BVal.vstr "a@b.c", BVal.vstr "017"⟩
          0).parking
        (some "u1")).body
      = [⟨"bbbbbbbbbbbbbbbbbbbbbbbb",
          bookedDoc
            ⟨BVal.vstr "u1", BVal.vstr "car", BVal.vstr "Ann", BVal.vstr "a@b.c", BVal.vstr "017"⟩
            0⟩]
    ∧ getField
        (bookedDoc
          ⟨BVal.vstr "u1", BVal.vstr "car", BVal.vstr "Ann", BVal.vstr "a@b.c", BVal.vstr "017"⟩
          0) "status"
      = some (BVal.vstr "inital")
    ∧ parkingPatch
        (parkingBook [] "bbbbbbbbbbbbbbbbbbbbbbbb"
          ⟨BVal.vstr "u1", BVal.vstr "car", BVal.vstr "Ann", BVal.vstr "a@b.c", BVal.vstr "017"⟩
          0).parking
        "bbbbbbbbbbbbbbbbbbbbbbbb" [("status", BVal.vstr "completed")]
      = .ok
          ([] ++ [⟨"bbbbbbbbbbbbbbbbbbbbbbbb",
            setFields
              (bookedDoc
                ⟨BVal.vstr "u1", BVal.vstr "car", BVal.vstr "Ann", BVal.vstr "a@b.c",
                 BVal.vstr "017"⟩
                0)
              [("status", BVal.vstr "completed")]⟩])
          200 1
    ∧ (userHistory
        ([] ++ [⟨"bbbbbbbbbbbbbbbbbbbbbbbb",
          setFields
            (bookedDoc
              ⟨BVal.vstr "u1", BVal.vstr "car", BVal.vstr "Ann", BVal.vstr "a@b.c",
               BVal.vstr "017"⟩
              0)
            [("status", BVal.vstr "completed")]⟩])
        (some "u1")).body
      = [⟨"bbbbbbbbbbbbbbbbbbbbbbbb",
          setFields
            (bookedDoc
              ⟨BVal.vstr "u1", BVal.vstr "car", BVal.vstr "Ann", BVal.vstr "a@b.c",
               BVal.vstr "017"⟩
              0)
            [("status", BVal.vstr "completed")]⟩]
    ∧ (userCurrentParking
        ([] ++ [⟨"bbbbbbbbbbbbbbbbbbbbbbbb",
          setFields
            (bookedDoc
              ⟨BVal.vstr "u1", BVal.vstr "car", BVal.vstr "Ann", BVal.vstr "a@b.c",
               BVal.vstr "017"⟩
              0)
            [("status", BVal.vstr "completed")]⟩])
        (some "u1")).body
      = [] :=
  bookLifecycle_spec [] "u1" "bbbbbbbbbbbbbbbbbbbbbbbb"
    ⟨BVal.vstr "u1", BVal.vstr "car", BVal.vstr "Ann", BVal.vstr "a@b.c", BVal.vstr "017"⟩
    0 (by decide) rfl (by simp) (by simp) (by decide)

end SmartParking
